import Mathlib

/-!
Shallow embedding of `core/bin/zksync_core/src/witness_generator/basic_circuits.rs`
(basic-circuit witness generator of the proving pipeline).

Conventions of the embedding:
* `H256` / `U256` hash values, blob URLs and opaque payloads (`PrepareBasicCircuitsJob`,
  scheduler witnesses, public-input bundles) are modelled as `Nat` tokens; the
  `h256_to_u256` / `u256_to_h256` conversions in the source are bijections, so both
  hash types collapse to one.
* The two relational stores behind the connection pools are modelled as read maps
  (`ChainState`) plus explicit event lists for the writes the code performs
  (`JobEvent`, `StoreEvent`, `TxOp`, `PersistEvent`); a database transaction is one
  `PersistEvent.Transaction` value carrying the ordered list of its operations.
* Rust panics (`unwrap`, `expect`, `assert_eq`) on this code path abort the job
  attempt; they are modelled as `Except.error` with a constructor per panic site.
* `bytes_to_chunks` and `expand_bootloader_contents` live in `witness_generator::utils`
  (outside the modelled file) and only reshape byte buffers; byte buffers are kept
  abstract as `List Nat`, so these reshapes are absorbed into the buffer tokens.
* The external witness engine (`run_with_fixed_params` of `zkevm_test_harness`) is an
  explicit function parameter `engine : EngineInput → EngineOutput`.
* The optional diagnostic dump (`save_run_with_fixed_params_args_to_gcs`, gated by
  `config.dump_arguments_for_blocks`) writes a debug blob before the engine call and
  affects no state or result observed by the claims; it is not modelled.
-/

/-- Header data of one L1 batch, as read through `blocks_dal().get_block_header`.
Only the fields the modelled file touches are kept; `base_system_contracts_hashes`
is flattened into the `bootloader_hash` / `default_aa_hash` fields. -/
structure BlockHeader where
  timestamp : Nat
  used_contract_hashes : List Nat
  initial_bootloader_contents : List Nat
  bootloader_hash : Nat
  default_aa_hash : Nat
  deriving DecidableEq

/-- Read view of the chain-data store (the `connection_pool` side): header lookup,
finalized state-root lookup, factory-dependency (bytecode) lookup by hash, and the
miniblock range of a batch, all keyed by `Nat` block numbers / hashes. -/
structure ChainState where
  headers : Nat → Option BlockHeader
  state_roots : Nat → Option Nat
  factory_deps : Nat → Option (List Nat)
  miniblock_range : Nat → Option (Nat × Nat)

/-- One constructor per panic site of the modelled job attempt:
`get_block_header(..).unwrap()`, the predecessor-root `expect`, the two mandatory
system-bytecode `expect`s, the `assert_eq!` on resolved factory-dep counts, and the
miniblock-range `expect`. -/
inductive WitnessError where
  | MissingHeader (block_number : Nat)
  | MissingPredecessorState
  | MissingBootloaderBytecode
  | MissingDefaultAABytecode
  | FactoryDepsMismatch
  | MissingMiniblockRange
  deriving DecidableEq

/-- `BasicCircuitWitnessGeneratorInput` (the reconstructed witness input);
`merkle_paths_input` is the opaque `PrepareBasicCircuitsJob` token. -/
structure BasicCircuitWitnessGeneratorInput where
  block_number : Nat
  previous_block_timestamp : Nat
  previous_block_hash : Nat
  block_timestamp : Nat
  used_bytecodes_hashes : List Nat
  initial_heap_content : List Nat
  merkle_paths_input : Nat
  deriving DecidableEq

/-- One flattened `ZkSyncCircuit` instance; only its circuit-type tag is observable
to the persistence layer (it names the stored artifact and the fan-out job). -/
structure Circuit where
  circuit_type : Nat
  deriving DecidableEq

/-- `BlockBasicCircuits`, kept abstract except for its `into_flattened_set` view. -/
structure BlockBasicCircuits where
  flattened : List Circuit
  deriving DecidableEq

/-- The triple returned by the witness engine: circuit set, public inputs,
scheduler witness (the latter two are opaque tokens). -/
structure EngineOutput where
  basic_circuits : BlockBasicCircuits
  basic_circuits_inputs : Nat
  scheduler_witness : Nat
  deriving DecidableEq

/-- Argument bundle of the `run_with_fixed_params` engine call, restricted to the
arguments that carry job-dependent data (the geometry config, cycle budget and the
storage/memory oracles are fixed or derived from `ChainState`).  `used_bytecodes`
is the key set of the resolved bytecode map; every value of that map is recoverable
from `ChainState.factory_deps` at its key, including the re-inserted default-account
entry, so keys determine the map. -/
structure EngineInput where
  caller : Nat
  entry_point_address : Nat
  bootloader_code : List Nat
  initial_heap_content : List Nat
  zk_porter_is_available : Bool
  default_aa_code_hash : Nat
  used_bytecodes : Finset Nat
  last_miniblock_number : Nat
  merkle_paths_input : Nat
  previous_block_hash : Nat
  deriving DecidableEq

/-- `BasicCircuitArtifacts`: the job result bundle. -/
structure BasicCircuitArtifacts where
  basic_circuits : BlockBasicCircuits
  basic_circuits_inputs : Nat
  scheduler_witness : Nat
  circuits : List Circuit
  deriving DecidableEq

/-- The fields of `WitnessGeneratorConfig` the modelled file reads. -/
structure WitnessGeneratorConfig where
  blocks_proving_percentage : Option Nat
  max_attempts : Nat
  dump_arguments_for_blocks : List Nat
  witness_generation_timeout : Nat
  last_l1_batch_to_process : Nat
  deriving DecidableEq

/-- Artifact kinds written by the persister; keys of the object store are the
deterministic pair (block number, kind). -/
inductive ArtifactKind where
  | basicCircuits
  | basicCircuitsInputs
  | schedulerWitness
  | circuitInstance (circuit_type : Nat)
  deriving DecidableEq

/-- The artifact store: `put_url` is the deterministic location a `put` of the given
(block number, artifact kind) key returns. -/
structure ObjectStore where
  put_url : Nat → ArtifactKind → Nat

/-- `BlobUrls`: locations returned by `save_artifacts`. -/
structure BlobUrls where
  basic_circuits_url : Nat
  basic_circuits_inputs_url : Nat
  scheduler_witness_url : Nat
  circuit_types_and_urls : List (Nat × Nat)
  deriving DecidableEq

/-- A write to the artifact store: `put` of the (block number, kind) key. -/
inductive StoreEvent where
  | Put (block_number : Nat) (kind : ArtifactKind)
  deriving DecidableEq

/-- Operations queued inside the single bookkeeping transaction of
`update_database`. -/
inductive TxOp where
  | CreateAggregationJobs (block_number : Nat) (basic_circuits_url : Nat)
      (basic_circuits_inputs_url : Nat) (number_of_basic_circuits : Nat)
      (scheduler_witness_url : Nat)
  | InsertProverJobs (block_number : Nat) (circuit_types_and_urls : List (Nat × Nat))
  | MarkWitnessJobAsSuccessful (block_number : Nat)
  deriving DecidableEq

/-- An observable effect of result persistence: an artifact-store write, or one
atomic committed transaction with its ordered operation list. -/
inductive PersistEvent where
  | Store (e : StoreEvent)
  | Transaction (ops : List TxOp)
  deriving DecidableEq

/-- Writes performed by the sampling-skip branch of `process_job_impl`:
`blocks_dal().set_skip_proof_for_l1_batch` on the chain-data store and
`witness_generator_dal().mark_witness_job_as_skipped` on the job store. -/
inductive JobEvent where
  | SetSkipProofForL1Batch (block_number : Nat)
  | MarkWitnessJobAsSkipped (block_number : Nat)
  deriving DecidableEq

/-- `BasicWitnessGeneratorJob`: block number plus the opaque
`PrepareBasicCircuitsJob` payload. -/
structure BasicWitnessGeneratorJob where
  block_number : Nat
  job : Nat
  deriving DecidableEq

/-- Combined bookkeeping state of one job: the attempt counter recorded by the
job store and whether the owning block has been marked proof-skipped
(`set_skip_proof_for_l1_batch`) in the chain-data store. -/
structure JobState where
  attempts : Nat
  block_proof_skipped : Bool
  deriving DecidableEq

/-- The generator struct; the connection pools are ambient (`ChainState` and event
lists), so only the constructor config and the object store remain as fields. -/
structure BasicWitnessGenerator where
  config : WitnessGeneratorConfig
  object_store : ObjectStore

/-- `zksync_config::constants::BOOTLOADER_ADDRESS` (0x8001). -/
def BOOTLOADER_ADDRESS : Nat := 32769

/-- `build_basic_circuits_witness_generator_input`: fetch the header of
`block_number` and of `block_number - 1` (each `unwrap`), then the predecessor's
finalized state root (`expect`), and assemble the input. -/
def build_basic_circuits_witness_generator_input (st : ChainState)
    (witness_merkle_input : Nat) (block_number : Nat) :
    Except WitnessError BasicCircuitWitnessGeneratorInput :=
  match st.headers block_number with
  | none => .error (.MissingHeader block_number)
  | some block_header =>
    match st.headers (block_number - 1) with
    | none => .error (.MissingHeader (block_number - 1))
    | some previous_block_header =>
      match st.state_roots (block_number - 1) with
      | none => .error .MissingPredecessorState
      | some previous_block_hash =>
        .ok { block_number := block_number
              previous_block_timestamp := previous_block_header.timestamp
              previous_block_hash := previous_block_hash
              block_timestamp := block_header.timestamp
              used_bytecodes_hashes := block_header.used_contract_hashes
              initial_heap_content := block_header.initial_bootloader_contents
              merkle_paths_input := witness_merkle_input }

/-- The local `hashes` set of `generate_witness`: the header's referenced bytecode
hashes, with every occurrence of the header's bootloader hash filtered out,
collected into a hash set. -/
def requested_hashes (header : BlockHeader)
    (input : BasicCircuitWitnessGeneratorInput) : Finset Nat :=
  (input.used_bytecodes_hashes.filter (fun hash => hash != header.bootloader_hash)).toFinset

/-- Modelled from the spec: `storage_dal().get_factory_deps` (DAL layer, not in the
source tree) bulk-resolves a hash set against storage and returns the map of the
hashes it found, so its key set is the subset of requested hashes present in
storage. -/
def resolved_keys (st : ChainState) (hashes : Finset Nat) : Finset Nat :=
  hashes.filter (fun hash => (st.factory_deps hash).isSome)

/-- Key set of the local `used_bytecodes` map of `generate_witness`: the bulk
resolution result, with the default-account code hash re-inserted whenever the
header references it. -/
def used_bytecodes_keys (st : ChainState) (header : BlockHeader)
    (input : BasicCircuitWitnessGeneratorInput) : Finset Nat :=
  let account_code_hash := header.default_aa_hash
  let base := resolved_keys st (requested_hashes header input)
  if account_code_hash ∈ input.used_bytecodes_hashes then insert account_code_hash base
  else base

/-- `generate_witness`: re-fetch the header, resolve the mandatory bootloader and
default-account bytecodes (`expect`), bulk-resolve the remaining referenced hashes,
`assert_eq!` the requested and resolved counts, fetch the predecessor's miniblock
range (`expect`), and invoke the engine on a blocking context. -/
def generate_witness (st : ChainState) (_config : WitnessGeneratorConfig)
    (input : BasicCircuitWitnessGeneratorInput)
    (engine : EngineInput → EngineOutput) : Except WitnessError EngineOutput :=
  match st.headers input.block_number with
  | none => .error (.MissingHeader input.block_number)
  | some header =>
    match st.factory_deps header.bootloader_hash with
    | none => .error .MissingBootloaderBytecode
    | some bootloader_code =>
      match st.factory_deps header.default_aa_hash with
      | none => .error .MissingDefaultAABytecode
      | some _account_bytecode =>
        let account_code_hash := header.default_aa_hash
        let hashes := requested_hashes header input
        let used_bytecodes := used_bytecodes_keys st header input
        if hashes.card = used_bytecodes.card then
          match st.miniblock_range (input.block_number - 1) with
          | none => .error .MissingMiniblockRange
          | some (_, last_miniblock_number) =>
            .ok (engine
              { caller := 0
                entry_point_address := BOOTLOADER_ADDRESS
                bootloader_code := bootloader_code
                initial_heap_content := input.initial_heap_content
                zk_porter_is_available := false
                default_aa_code_hash := account_code_hash
                used_bytecodes := used_bytecodes
                last_miniblock_number := last_miniblock_number
                merkle_paths_input := input.merkle_paths_input
                previous_block_hash := input.previous_block_hash })
        else .error .FactoryDepsMismatch

/-- `process_basic_circuits_job`: build the witness input, run `generate_witness`,
and package the artifacts, flattening the circuit set. -/
def process_basic_circuits_job (_object_store : ObjectStore)
    (config : WitnessGeneratorConfig) (st : ChainState) (block_number : Nat)
    (job : Nat) (engine : EngineInput → EngineOutput) :
    Except WitnessError BasicCircuitArtifacts :=
  match build_basic_circuits_witness_generator_input st job block_number with
  | .error e => .error e
  | .ok witness_gen_input =>
    match generate_witness st config witness_gen_input engine with
    | .error e => .error e
    | .ok out =>
      .ok { basic_circuits := out.basic_circuits
            basic_circuits_inputs := out.basic_circuits_inputs
            scheduler_witness := out.scheduler_witness
            circuits := out.basic_circuits.flattened }

/-- `process_job_impl`: `threshold` is the value drawn by
`rand::thread_rng().gen_range(1..100)` (a uniform integer of the open interval
(0, 100)); `env_config` is the `WitnessGeneratorConfig::from_env()` reload.  When a
proving percentage is configured and the draw exceeds it, the block is marked
skip-proof, the job is marked skipped, and no artifacts are produced; otherwise the
job is processed. -/
def process_job_impl (env_config : WitnessGeneratorConfig) (threshold : Nat)
    (st : ChainState) (object_store : ObjectStore)
    (basic_job : BasicWitnessGeneratorJob) (engine : EngineInput → EngineOutput) :
    Except WitnessError (Option BasicCircuitArtifacts) × List JobEvent :=
  match env_config.blocks_proving_percentage with
  | some blocks_proving_percentage =>
    if blocks_proving_percentage < threshold then
      (.ok none,
        [.SetSkipProofForL1Batch basic_job.block_number,
         .MarkWitnessJobAsSkipped basic_job.block_number])
    else
      ((process_basic_circuits_job object_store env_config st basic_job.block_number
          basic_job.job engine).map some, [])
  | none =>
    ((process_basic_circuits_job object_store env_config st basic_job.block_number
        basic_job.job engine).map some, [])

/-- Modelled from the spec: `save_prover_input_artifacts`
(`witness_generator::utils`, not in the source tree) writes every flattened circuit
instance to the artifact store, each tagged with its circuit-type name, and returns
the (circuit type, location) pairs in order. -/
def save_prover_input_artifacts (block_number : Nat) (circuits : List Circuit)
    (object_store : ObjectStore) : List (Nat × Nat) × List StoreEvent :=
  (circuits.map (fun c =>
      (c.circuit_type, object_store.put_url block_number (.circuitInstance c.circuit_type))),
   circuits.map (fun c => .Put block_number (.circuitInstance c.circuit_type)))

/-- `save_artifacts`: put the circuit set, the public-inputs bundle and the
scheduler witness, then every flattened circuit instance, collecting all URLs. -/
def save_artifacts (block_number : Nat) (artifacts : BasicCircuitArtifacts)
    (object_store : ObjectStore) : BlobUrls × List StoreEvent :=
  let basic_circuits_url := object_store.put_url block_number .basicCircuits
  let basic_circuits_inputs_url := object_store.put_url block_number .basicCircuitsInputs
  let scheduler_witness_url := object_store.put_url block_number .schedulerWitness
  let (circuit_types_and_urls, circuit_events) :=
    save_prover_input_artifacts block_number artifacts.circuits object_store
  ({ basic_circuits_url := basic_circuits_url
     basic_circuits_inputs_url := basic_circuits_inputs_url
     scheduler_witness_url := scheduler_witness_url
     circuit_types_and_urls := circuit_types_and_urls },
   [.Put block_number .basicCircuits, .Put block_number .basicCircuitsInputs,
    .Put block_number .schedulerWitness] ++ circuit_events)

/-- `update_database`: the single transaction committed after the artifact writes —
create the aggregation jobs (three top-level URLs plus the basic-circuit count),
insert one prover job per (circuit type, URL) pair, and mark the witness job
successful. -/
def update_database (block_number : Nat) (blob_urls : BlobUrls) : List TxOp :=
  [.CreateAggregationJobs block_number blob_urls.basic_circuits_url
      blob_urls.basic_circuits_inputs_url blob_urls.circuit_types_and_urls.length
      blob_urls.scheduler_witness_url,
   .InsertProverJobs block_number blob_urls.circuit_types_and_urls,
   .MarkWitnessJobAsSuccessful block_number]

/-- `save_result`: nothing on a skipped job (`None`); otherwise write all artifacts
and then commit the bookkeeping transaction. -/
def save_result (block_number : Nat)
    (optional_artifacts : Option BasicCircuitArtifacts)
    (object_store : ObjectStore) : List PersistEvent :=
  match optional_artifacts with
  | none => []
  | some artifacts =>
    let (blob_urls, store_events) := save_artifacts block_number artifacts object_store
    store_events.map .Store ++ [.Transaction (update_database block_number blob_urls)]

/-- Modelled from the spec: `mark_witness_job_as_failed` (DAL layer, not in the
source tree) increments the job's attempt counter, records the error message, and
returns the updated attempt count. -/
def mark_witness_job_as_failed (s : JobState) : Nat × JobState :=
  (s.attempts + 1, { s with attempts := s.attempts + 1 })

/-- `BasicWitnessGenerator::save_failure`: record the failed attempt; if the
returned attempt count reaches `self.config.max_attempts`, also mark the owning
block skip-proof in the chain-data store. -/
def BasicWitnessGenerator.save_failure (g : BasicWitnessGenerator)
    (s : JobState) : JobState :=
  let (attempts, s') := mark_witness_job_as_failed s
  if g.config.max_attempts ≤ attempts then { s' with block_proof_skipped := true }
  else s'

/-- `BasicWitnessGenerator::process_job`: spawns `process_job_impl` with clones of
the generator's object store and pools; only the environment-reloaded config — not
`self.config` — reaches the job body. -/
def BasicWitnessGenerator.process_job (g : BasicWitnessGenerator)
    (env_config : WitnessGeneratorConfig) (threshold : Nat) (st : ChainState)
    (basic_job : BasicWitnessGeneratorJob) (engine : EngineInput → EngineOutput) :
    Except WitnessError (Option BasicCircuitArtifacts) × List JobEvent :=
  process_job_impl env_config threshold st g.object_store basic_job engine

/-- The support of `rand::thread_rng().gen_range(1..100)`: the integers of the
open interval (0, 100), each drawn with probability 1/99. -/
def sampling_draws : Finset Nat := Finset.Ico 1 100

deriving instance DecidableEq for Except

/-- The draws on which `process_job_impl` takes the sampling-skip branch
(recognised by its `Ok(None)` job result). -/
def skip_set (env_config : WitnessGeneratorConfig) (st : ChainState)
    (object_store : ObjectStore) (basic_job : BasicWitnessGeneratorJob)
    (engine : EngineInput → EngineOutput) : Finset Nat :=
  sampling_draws.filter
    (fun t => (process_job_impl env_config t st object_store basic_job engine).1 =
      Except.ok none)

/-- Bookkeeping state of a freshly created job: no recorded attempts, block not
marked proof-skipped. -/
def initialJobState : JobState := { attempts := 0, block_proof_skipped := false }

/-! Concrete chain states, configs and jobs used by counterexamples and
witnesses. -/

/-- A header referencing bytecode hash 7, with bootloader hash 2 and
default-account hash 3. -/
def header5 : BlockHeader :=
  { timestamp := 1, used_contract_hashes := [7], initial_bootloader_contents := []
    bootloader_hash := 2, default_aa_hash := 3 }

/-- A chain state with nothing stored. -/
def stEmpty : ChainState :=
  { headers := fun _ => none, state_roots := fun _ => none
    factory_deps := fun _ => none, miniblock_range := fun _ => none }

/-- A chain state on which block 5 is fully processable: headers for 5 and 4, root
for 4, all referenced bytecodes present, miniblock range for 4. -/
def stReady : ChainState :=
  { headers := fun n => if n = 5 ∨ n = 4 then some header5 else none
    state_roots := fun n => if n = 4 then some 77 else none
    factory_deps := fun h => if h = 2 ∨ h = 3 ∨ h = 7 then some [h] else none
    miniblock_range := fun n => if n = 4 then some (0, 9) else none }

/-- Like `stReady` but with every factory dependency absent. -/
def stMissingBytecode : ChainState :=
  { headers := fun n => if n = 5 ∨ n = 4 then some header5 else none
    state_roots := fun n => if n = 4 then some 77 else none
    factory_deps := fun _ => none
    miniblock_range := fun n => if n = 4 then some (0, 9) else none }

/-- An artifact store whose every put lands at location 0. -/
def store0 : ObjectStore := { put_url := fun _ _ => 0 }

/-- A job for block 5. -/
def job0 : BasicWitnessGeneratorJob := { block_number := 5, job := 0 }

/-- A config with proving percentage 50. -/
def cfg50 : WitnessGeneratorConfig :=
  { blocks_proving_percentage := some 50, max_attempts := 10
    dump_arguments_for_blocks := [], witness_generation_timeout := 0
    last_l1_batch_to_process := 0 }

/-- Like `cfg50` but with no proving percentage configured. -/
def cfgNone : WitnessGeneratorConfig := { cfg50 with blocks_proving_percentage := none }

/-- Like `cfg50` but with `max_attempts` 3. -/
def cfg3 : WitnessGeneratorConfig := { cfg50 with max_attempts := 3 }

/-- A witness engine returning a fixed empty output. -/
def engine0 : EngineInput → EngineOutput :=
  fun _ => { basic_circuits := { flattened := [] }, basic_circuits_inputs := 0
             scheduler_witness := 0 }

/-- The output `engine0` always returns. -/
def out0 : EngineOutput :=
  { basic_circuits := { flattened := [] }, basic_circuits_inputs := 0
    scheduler_witness := 0 }

/-- The reconstructed input for block 5 over `stReady`. -/
def input1 : BasicCircuitWitnessGeneratorInput :=
  { block_number := 5, previous_block_timestamp := 1, previous_block_hash := 77
    block_timestamp := 1, used_bytecodes_hashes := [7], initial_heap_content := []
    merkle_paths_input := 0 }

/-- An artifact bundle with two flattened circuits of types 1 and 2. -/
def artifacts0 : BasicCircuitArtifacts :=
  { basic_circuits := { flattened := [⟨1⟩, ⟨2⟩] }, basic_circuits_inputs := 4
    scheduler_witness := 6, circuits := [⟨1⟩, ⟨2⟩] }

/-- A generator built with `cfg50`. -/
def gA : BasicWitnessGenerator := { config := cfg50, object_store := store0 }

/-- A generator built with `cfgNone`, same store as `gA`. -/
def gB : BasicWitnessGenerator := { config := cfgNone, object_store := store0 }

/-- A generator built with `cfg3`. -/
def g3 : BasicWitnessGenerator := { config := cfg3, object_store := store0 }

/-! Theorems. -/

/-- Claim C10 (confirmed): the configuration governing the sampling decision and
witness generation is re-read from the environment at job-processing time; two
generators differing only in the constructor config (same object store) behave
identically in `process_job` for every environment config, draw, chain state, job
and engine. -/
theorem process_job_ignores_constructor_config (g1 g2 : BasicWitnessGenerator)
    (h : g1.object_store = g2.object_store) (env_config : WitnessGeneratorConfig)
    (threshold : Nat) (st : ChainState) (basic_job : BasicWitnessGeneratorJob)
    (engine : EngineInput → EngineOutput) :
    g1.process_job env_config threshold st basic_job engine =
      g2.process_job env_config threshold st basic_job engine := by
  unfold BasicWitnessGenerator.process_job
  rw [h]

/-- Witness for claim C10 at generators differing only in their constructor
config. -/
theorem process_job_ignores_constructor_config_witness :
    gA.process_job cfgNone 10 stEmpty job0 engine0 =
      gB.process_job cfgNone 10 stEmpty job0 engine0 :=
  process_job_ignores_constructor_config gA gB rfl cfgNone 10 stEmpty job0 engine0

/-- Claim C5 (confirmed): successful completion first writes the circuit set, the
public-inputs bundle, the scheduler witness and one tagged artifact per flattened
circuit instance to the artifact store, and only then appends one single
transaction that records the three top-level artifact locations, inserts one
downstream prover job per flattened circuit instance (fan-out count equals the
flattened circuit count) and marks the job Successful. -/
theorem save_result_writes_artifacts_then_single_transaction (block_number : Nat)
    (artifacts : BasicCircuitArtifacts) (object_store : ObjectStore) :
    save_result block_number (some artifacts) object_store =
      ((save_artifacts block_number artifacts object_store).2.map PersistEvent.Store) ++
        [PersistEvent.Transaction
          (update_database block_number
            (save_artifacts block_number artifacts object_store).1)] ∧
    update_database block_number (save_artifacts block_number artifacts object_store).1 =
      [TxOp.CreateAggregationJobs block_number
          (object_store.put_url block_number ArtifactKind.basicCircuits)
          (object_store.put_url block_number ArtifactKind.basicCircuitsInputs)
          artifacts.circuits.length
          (object_store.put_url block_number ArtifactKind.schedulerWitness),
       TxOp.InsertProverJobs block_number
          (artifacts.circuits.map (fun c =>
            (c.circuit_type,
             object_store.put_url block_number (ArtifactKind.circuitInstance c.circuit_type)))),
       TxOp.MarkWitnessJobAsSuccessful block_number] ∧
    (save_artifacts block_number artifacts object_store).2 =
      [StoreEvent.Put block_number ArtifactKind.basicCircuits,
       StoreEvent.Put block_number ArtifactKind.basicCircuitsInputs,
       StoreEvent.Put block_number ArtifactKind.schedulerWitness] ++
        artifacts.circuits.map (fun c =>
          StoreEvent.Put block_number (ArtifactKind.circuitInstance c.circuit_type)) := by
  refine ⟨?_, ?_, ?_⟩
  · simp [save_result, save_artifacts, save_prover_input_artifacts]
  · simp [update_database, save_artifacts, save_prover_input_artifacts]
  · simp [save_artifacts, save_prover_input_artifacts]

/-- Witness for claim C5 on a concrete two-circuit artifact bundle. -/
theorem save_result_writes_artifacts_then_single_transaction_witness :
    save_result 5 (some artifacts0) store0 =
      ((save_artifacts 5 artifacts0 store0).2.map PersistEvent.Store) ++
        [PersistEvent.Transaction (update_database 5 (save_artifacts 5 artifacts0 store0).1)] :=
  (save_result_writes_artifacts_then_single_transaction 5 artifacts0 store0).1

/-- Claim C8 (confirmed): the set of bytecode hashes requested from storage for
bulk resolution is exactly the header's referenced hashes with the header's
bootloader hash removed, and the bootloader hash is never part of that set. -/
theorem requested_hashes_are_referenced_minus_bootloader (header : BlockHeader)
    (input : BasicCircuitWitnessGeneratorInput) :
    requested_hashes header input =
      input.used_bytecodes_hashes.toFinset.erase header.bootloader_hash ∧
    header.bootloader_hash ∉ requested_hashes header input := by
  constructor
  · ext h
    simp [requested_hashes, List.mem_toFinset, List.mem_filter, Finset.mem_erase,
      bne_iff_ne, and_comm]
  · simp [requested_hashes, List.mem_toFinset, List.mem_filter]

/-- Witness for claim C8 at the concrete header of block 5. -/
theorem requested_hashes_are_referenced_minus_bootloader_witness :
    header5.bootloader_hash ∉ requested_hashes header5 input1 :=
  (requested_hashes_are_referenced_minus_bootloader header5 input1).2

/-- Helper: one `save_failure` call increments the attempt counter, and the block
ends marked proof-skipped exactly when it already was or the new count reaches
`max_attempts`. -/
theorem save_failure_step (g : BasicWitnessGenerator) (s : JobState) :
    (g.save_failure s).attempts = s.attempts + 1 ∧
      ((g.save_failure s).block_proof_skipped = true ↔
        (s.block_proof_skipped = true ∨ g.config.max_attempts ≤ s.attempts + 1)) := by
  unfold BasicWitnessGenerator.save_failure mark_witness_job_as_failed
  by_cases hc : g.config.max_attempts ≤ s.attempts + 1 <;> simp [hc]

/-- Claim C2 (confirmed): for a job that always fails, each `save_failure` call
increments the recorded attempt counter, and (whenever at least one attempt is
allowed) the owning block is marked proof-skipped in the chain-data store exactly
when the recorded attempts reach `max_attempts`: after exactly `max_attempts`
recorded failures, never fewer, never more. -/
theorem save_failure_marks_block_after_exactly_max_attempts
    (g : BasicWitnessGenerator) (h : 1 ≤ g.config.max_attempts) (n : Nat) :
    ((g.save_failure)^[n] initialJobState).attempts = n ∧
      (((g.save_failure)^[n] initialJobState).block_proof_skipped = true ↔
        g.config.max_attempts ≤ n) := by
  induction n with
  | zero =>
    refine ⟨rfl, ?_⟩
    show initialJobState.block_proof_skipped = true ↔ _
    simp [initialJobState]
    omega
  | succ n ih =>
    obtain ⟨ha, hs⟩ := ih
    rw [Function.iterate_succ_apply']
    obtain ⟨ha', hs'⟩ := save_failure_step g ((g.save_failure)^[n] initialJobState)
    refine ⟨by rw [ha', ha], ?_⟩
    rw [hs', hs, ha]
    omega

/-- Witness for claim C2 with `max_attempts` 3: after three failures the attempt
counter is 3 and the block is marked proof-skipped. -/
theorem save_failure_marks_block_after_exactly_max_attempts_witness :
    ((g3.save_failure)^[3] initialJobState).attempts = 3 ∧
      (((g3.save_failure)^[3] initialJobState).block_proof_skipped = true ↔
        g3.config.max_attempts ≤ 3) :=
  save_failure_marks_block_after_exactly_max_attempts g3 (by decide) 3

/-- Claim C3 counterexample: on a chain state with every header absent, the state
root of block 4 = 5 − 1 is absent, yet building the input for block 5 does not
fail with `MissingPredecessorState` (it fails with the missing-header panic
first), refuting the unconditional if-and-only-if. -/
theorem build_counterexample_missing_header :
    stEmpty.state_roots (5 - 1) = none ∧
      build_basic_circuits_witness_generator_input stEmpty 0 5 ≠
        Except.error WitnessError.MissingPredecessorState :=
  ⟨rfl, by decide⟩

/-- Claim C3 (amended, confirmed): provided the headers of `block_number` and of
its predecessor are present, the build fails with `MissingPredecessorState` iff
the predecessor's finalized state root is absent at call time; when that root is
present, the build returns the reconstructed input carrying it as
`previous_block_hash`. -/
theorem build_missing_predecessor_state_iff (st : ChainState)
    (witness_merkle_input block_number : Nat)
    (hb : (st.headers block_number).isSome)
    (hp : (st.headers (block_number - 1)).isSome) :
    (build_basic_circuits_witness_generator_input st witness_merkle_input block_number =
        Except.error WitnessError.MissingPredecessorState ↔
      st.state_roots (block_number - 1) = none) ∧
    (∀ root, st.state_roots (block_number - 1) = some root →
      ∃ input,
        build_basic_circuits_witness_generator_input st witness_merkle_input block_number =
          Except.ok input ∧ input.previous_block_hash = root) := by
  obtain ⟨h1, hh1⟩ := Option.isSome_iff_exists.mp hb
  obtain ⟨h2, hh2⟩ := Option.isSome_iff_exists.mp hp
  unfold build_basic_circuits_witness_generator_input
  rw [hh1, hh2]
  constructor
  · cases hr : st.state_roots (block_number - 1) with
    | none => simp
    | some root => simp
  · intro root hr
    rw [hr]
    exact ⟨_, rfl, rfl⟩

/-- Witness for claim C3 (amended) on `stReady`: the predecessor root 77 is
present and the build succeeds with it as `previous_block_hash`. -/
theorem build_missing_predecessor_state_iff_witness :
    ∃ input,
      build_basic_circuits_witness_generator_input stReady 0 5 = Except.ok input ∧
        input.previous_block_hash = 77 :=
  (build_missing_predecessor_state_iff stReady 0 5 (by decide) (by decide)).2 77 (by decide)


/-- Claim C4 (confirmed): whenever `generate_witness` returns successfully the
resolved bytecode key count equals the requested hash count (the referenced hashes
minus the bootloader-hash exclusion), and any failing run returns the same error
for every engine — the attempt fails fatally before the engine is invoked, never
silently partial. -/
theorem generate_witness_resolution_counts (st : ChainState)
    (config : WitnessGeneratorConfig) (input : BasicCircuitWitnessGeneratorInput)
    (engine : EngineInput → EngineOutput) :
    (∀ out, generate_witness st config input engine = Except.ok out →
      ∃ header, st.headers input.block_number = some header ∧
        (used_bytecodes_keys st header input).card =
          (requested_hashes header input).card) ∧
    (∀ e, generate_witness st config input engine = Except.error e →
      ∀ engine2 : EngineInput → EngineOutput,
        generate_witness st config input engine2 = Except.error e) := by
  cases hh : st.headers input.block_number with
  | none =>
    refine ⟨fun out hout => ?_, fun e he engine2 => ?_⟩
    · unfold generate_witness at hout
      simp [hh] at hout
    · unfold generate_witness at he ⊢
      simp [hh] at he ⊢
      exact he
  | some header =>
    cases hb : st.factory_deps header.bootloader_hash with
    | none =>
      refine ⟨fun out hout => ?_, fun e he engine2 => ?_⟩
      · unfold generate_witness at hout
        simp [hh, hb] at hout
      · unfold generate_witness at he ⊢
        simp [hh, hb] at he ⊢
        exact he
    | some bootloader_code =>
      cases ha : st.factory_deps header.default_aa_hash with
      | none =>
        refine ⟨fun out hout => ?_, fun e he engine2 => ?_⟩
        · unfold generate_witness at hout
          simp [hh, hb, ha] at hout
        · unfold generate_witness at he ⊢
          simp [hh, hb, ha] at he ⊢
          exact he
      | some account_bytecode =>
        by_cases hc :
          (requested_hashes header input).card = (used_bytecodes_keys st header input).card
        · cases hm : st.miniblock_range (input.block_number - 1) with
          | none =>
            refine ⟨fun out hout => ?_, fun e he engine2 => ?_⟩
            · unfold generate_witness at hout
              simp [hh, hb, ha, hc, hm] at hout
            · unfold generate_witness at he ⊢
              simp [hh, hb, ha, hc, hm] at he ⊢
              exact he
          | some p =>
            refine ⟨fun out hout => ⟨header, rfl, hc.symm⟩, fun e he engine2 => ?_⟩
            unfold generate_witness at he
            obtain ⟨a, b⟩ := p
            simp [hh, hb, ha, hc, hm] at he
        · refine ⟨fun out hout => ?_, fun e he engine2 => ?_⟩
          · unfold generate_witness at hout
            simp [hh, hb, ha, hc] at hout
          · unfold generate_witness at he ⊢
            simp [hh, hb, ha, hc] at he ⊢
            exact he

/-- Witness for claim C4 on `stReady`, where generation succeeds. -/
theorem generate_witness_resolution_counts_witness :
    ∃ header, stReady.headers input1.block_number = some header ∧
      (used_bytecodes_keys stReady header input1).card =
        (requested_hashes header input1).card :=
  (generate_witness_resolution_counts stReady cfg50 input1 engine0).1 out0 (by decide)

/-- Claim C9 (confirmed): a successful `generate_witness` run requires both the
bootloader and the default-account bytecodes referenced by the current header to
resolve from storage; absence of either aborts the attempt with an error
independent of the engine — the engine is never invoked. -/
theorem generate_witness_requires_system_bytecodes (st : ChainState)
    (config : WitnessGeneratorConfig) (input : BasicCircuitWitnessGeneratorInput)
    (engine : EngineInput → EngineOutput) (header : BlockHeader)
    (hh : st.headers input.block_number = some header) :
    (∀ out, generate_witness st config input engine = Except.ok out →
      (st.factory_deps header.bootloader_hash).isSome ∧
        (st.factory_deps header.default_aa_hash).isSome) ∧
    ((st.factory_deps header.bootloader_hash = none ∨
        st.factory_deps header.default_aa_hash = none) →
      ∃ e, ∀ engine2 : EngineInput → EngineOutput,
        generate_witness st config input engine2 = Except.error e) := by
  cases hb : st.factory_deps header.bootloader_hash with
  | none =>
    refine ⟨fun out hout => ?_, fun _ => ⟨.MissingBootloaderBytecode, fun engine2 => ?_⟩⟩
    · unfold generate_witness at hout
      simp [hh, hb] at hout
    · unfold generate_witness
      simp [hh, hb]
  | some bootloader_code =>
    cases ha : st.factory_deps header.default_aa_hash with
    | none =>
      refine ⟨fun out hout => ?_, fun _ => ⟨.MissingDefaultAABytecode, fun engine2 => ?_⟩⟩
      · unfold generate_witness at hout
        simp [hh, hb, ha] at hout
      · unfold generate_witness
        simp [hh, hb, ha]
    | some account_bytecode =>
      refine ⟨fun out hout => ⟨by simp, by simp⟩, ?_⟩
      rintro (h | h) <;> simp at h

/-- Witness for claim C9 on a chain state whose factory dependencies are all
absent: generation fails identically for every engine. -/
theorem generate_witness_requires_system_bytecodes_witness :
    ∃ e, ∀ engine2 : EngineInput → EngineOutput,
      generate_witness stMissingBytecode cfg50 input1 engine2 = Except.error e :=
  (generate_witness_requires_system_bytecodes stMissingBytecode cfg50 input1 engine0
      header5 (by decide)).2 (Or.inl (by decide))

/-- Helper: the job result of `process_job_impl` is `Ok(None)` exactly when the
sampling-skip branch was taken (a proving percentage is configured and the draw
exceeds it); the processing branch wraps its result in `some` or fails. -/
theorem process_job_impl_ok_none_iff (env_config : WitnessGeneratorConfig)
    (threshold : Nat) (st : ChainState) (object_store : ObjectStore)
    (basic_job : BasicWitnessGeneratorJob) (engine : EngineInput → EngineOutput) :
    (process_job_impl env_config threshold st object_store basic_job engine).1 =
        Except.ok none ↔
      ∃ p, env_config.blocks_proving_percentage = some p ∧ p < threshold := by
  cases hp : env_config.blocks_proving_percentage with
  | none =>
    constructor
    · intro h
      unfold process_job_impl at h
      rw [hp] at h
      cases hres : process_basic_circuits_job object_store env_config st
          basic_job.block_number basic_job.job engine with
      | ok a => simp [hres, Except.map] at h
      | error e => simp [hres, Except.map] at h
    · rintro ⟨p, hps, -⟩
      simp at hps
  | some p =>
    constructor
    · intro h
      unfold process_job_impl at h
      rw [hp] at h
      by_cases hlt : p < threshold
      · exact ⟨p, rfl, hlt⟩
      · exfalso
        cases hres : process_basic_circuits_job object_store env_config st
            basic_job.block_number basic_job.job engine with
        | ok a => simp [hlt, hres, Except.map] at h
        | error e => simp [hlt, hres, Except.map] at h
    · rintro ⟨p', hps, hlt⟩
      injection hps with hpe
      subst hpe
      unfold process_job_impl
      rw [hp]
      simp [hlt]

/-- Claim C6 (confirmed): a sampling-skipped job produces the empty result, marks
the owning block skip-proof in the chain-data store and the job Skipped in the job
store, and `save_result` on the empty result performs no artifact-store writes and
no bookkeeping transaction; among completed job results, artifacts are non-empty
exactly when the job was not sampling-skipped. -/
theorem sampling_skip_produces_no_artifacts (env_config : WitnessGeneratorConfig)
    (threshold : Nat) (st : ChainState) (object_store : ObjectStore)
    (basic_job : BasicWitnessGeneratorJob) (engine : EngineInput → EngineOutput) :
    (∀ p, env_config.blocks_proving_percentage = some p → p < threshold →
      process_job_impl env_config threshold st object_store basic_job engine =
        (Except.ok none,
          [JobEvent.SetSkipProofForL1Batch basic_job.block_number,
           JobEvent.MarkWitnessJobAsSkipped basic_job.block_number]) ∧
      save_result basic_job.block_number none object_store = []) ∧
    (∀ r, (process_job_impl env_config threshold st object_store basic_job engine).1 =
        Except.ok r →
      (r.isSome ↔
        ¬ ∃ p, env_config.blocks_proving_percentage = some p ∧ p < threshold)) := by
  constructor
  · intro p hp hlt
    refine ⟨?_, rfl⟩
    unfold process_job_impl
    rw [hp]
    simp [hlt]
  · intro r hr
    rcases r with - | a
    · have hskip := (process_job_impl_ok_none_iff env_config threshold st object_store
        basic_job engine).mp hr
      simp [hskip]
    · have hnoskip : ¬ ∃ p, env_config.blocks_proving_percentage = some p ∧
          p < threshold := by
        intro hex
        have hnone := (process_job_impl_ok_none_iff env_config threshold st object_store
          basic_job engine).mpr hex
        rw [hr] at hnone
        simp at hnone
      simp [hnoskip]

/-- Witness for claim C6 with percentage 50 and draw 60. -/
theorem sampling_skip_produces_no_artifacts_witness :
    process_job_impl cfg50 60 stEmpty store0 job0 engine0 =
      (Except.ok none,
        [JobEvent.SetSkipProofForL1Batch job0.block_number,
         JobEvent.MarkWitnessJobAsSkipped job0.block_number]) ∧
    save_result job0.block_number none store0 = [] :=
  (sampling_skip_produces_no_artifacts cfg50 60 stEmpty store0 job0 engine0).1 50 rfl
    (by decide)

/-- Claim C1 counterexample: with proving percentage 50, the gate skips on 49 of
the 99 equiprobable draws of the open interval (0, 100), so the skip rate is
49/99 and not (100 − 50)/100. -/
theorem sampling_skip_rate_counterexample :
    (skip_set cfg50 stEmpty store0 job0 engine0).card * 100 ≠
      (100 - 50) * sampling_draws.card := by
  decide

/-- Claim C1 (amended, confirmed): the gate draws a uniform integer in the open
interval (0, 100) and skips exactly when the draw exceeds the configured
percentage P, so the skip rate over the 99 equiprobable draws is (99 − P)/99
(`card = 99 - P` in truncated subtraction, hence P = 100 never skips); when no
proving percentage is configured no draw ever skips. -/
theorem sampling_skip_rate (env_config : WitnessGeneratorConfig) (st : ChainState)
    (object_store : ObjectStore) (basic_job : BasicWitnessGeneratorJob)
    (engine : EngineInput → EngineOutput) :
    (∀ p, env_config.blocks_proving_percentage = some p →
      (skip_set env_config st object_store basic_job engine).card = 99 - p ∧
      ∀ t ∈ sampling_draws,
        ((process_job_impl env_config t st object_store basic_job engine).1 =
            Except.ok none ↔ p < t)) ∧
    (env_config.blocks_proving_percentage = none →
      skip_set env_config st object_store basic_job engine = ∅) := by
  constructor
  · intro p hp
    have hiff : ∀ t,
        ((process_job_impl env_config t st object_store basic_job engine).1 =
          Except.ok none ↔ p < t) := by
      intro t
      rw [process_job_impl_ok_none_iff]
      simp [hp]
    have hset : skip_set env_config st object_store basic_job engine =
        Finset.Ico (p + 1) 100 := by
      ext t
      simp only [skip_set, Finset.mem_filter, sampling_draws, Finset.mem_Ico, hiff]
      omega
    refine ⟨?_, fun t _ => hiff t⟩
    rw [hset, Nat.card_Ico]
    omega
  · intro hp
    ext t
    simp only [skip_set, Finset.mem_filter, process_job_impl_ok_none_iff, hp,
      Finset.not_mem_empty, iff_false]
    rintro ⟨-, p, hps, -⟩
    cases hps

/-- Witness for claim C1 (amended) at percentage 50: the skip set has 49 = 99 − 50
draws. -/
theorem sampling_skip_rate_witness :
    (skip_set cfg50 stEmpty store0 job0 engine0).card = 99 - 50 :=
  ((sampling_skip_rate cfg50 stEmpty store0 job0 engine0).1 50 rfl).1
